import Mathlib

/-!
Shallow embedding of the progress-bar component of this repository
(threeML/io/progress_bar.py) and proofs about its specified behaviour.

Modelling conventions:

* Python floats are modelled as exact rationals (ℚ).  Every float that occurs
  in the modelled code is a quotient of small integers, and the comparisons in
  the code are modelled verbatim on those exact values.
* Wall-clock time (time.time, the elapsed/remaining text produced by
  applying the private label helper) is outside the embedding: the label text is an
  uninterpreted environment-supplied function of the iteration number.  No
  settled statement depends on the content of a label.
* The builtin round is modelled with Python 3 semantics (round half to
  even).  No settled statement evaluates round at an exact half, so the
  tie-breaking rule never influences a result below.
* Side effects (writes to stdout, widget mutations, the one-time display
  registration) are modelled as an explicit event trace.  The two
  instrumentation events Event.render and Event.finished mark entry into
  the backend draw routine and into the finish method respectively,
  so that traces can count those calls.
* The availability of ipywidgets (the module flag has_widgets) and the
  success of rich-widget construction are environment flags; a failing
  rich construction is modelled as atomic (it produces no events).
* For claims about exceptions escaping a render, the stream write is modelled
  as fallible through an explicit printOk flag; everywhere else the stream is
  assumed healthy, matching the way the remaining claims are phrased.
-/

attribute [local semireducible] Rat.add Rat.sub Rat.mul Rat.inv

namespace ThreeMLProgress

/-- Python 3 builtin round on an exact rational: nearest integer, ties to
even.  Rat.floor is used (rather than the floor of the archimedean order
structure) because it evaluates inside the kernel; the two agree
(ratFloor_eq_intFloor below). -/
def pyRound (q : ℚ) : ℤ :=
  let f := q.floor
  if q - (f : ℚ) < 1/2 then f
  else if (1 : ℚ)/2 < q - (f : ℚ) then f + 1
  else if f % 2 = 0 then f else f + 1

/-- Python slice s[0:k] for an integer k (a negative k counts from the end,
clamped at 0). -/
def pySliceTo (l : List Char) (k : Int) : List Char :=
  if k < 0 then l.take (l.length - k.natAbs) else l.take k.toNat

/-- Python slice s[k:] for an integer k (a negative k counts from the end,
clamped at 0). -/
def pySliceFrom (l : List Char) (k : Int) : List Char :=
  if k < 0 then l.drop (l.length - k.natAbs) else l.drop k.toNat

/-- The bar glyph built from a completed percentage: body of
ProgressBarAscii._generate_bar after percent_done is known, shared verbatim
with the legacy ProgressBarOld.__update_amount.
Builds [ fill_char*num_hashes + blanks ] and splices the percentage
string (digits followed by the percent sign) at len(bar)//2 - len(str(percent_done)). -/
def makeBarString (width : Int) (fill_char : Char) (percent_done : Int) : String :=
  let all_full := width - 2
  let num_hashes := pyRound ((percent_done : ℚ) / 100 * (all_full : ℚ))
  let bar := "[" ++ String.mk (List.replicate num_hashes.toNat fill_char)
                 ++ String.mk (List.replicate (all_full - num_hashes).toNat ' ') ++ "]"
  let pct_place : Int := (bar.length : Int) / 2 - (toString percent_done).length
  let pct_string := toString percent_done ++ "%"
  String.mk (pySliceTo bar.toList pct_place) ++ pct_string ++
    String.mk (pySliceFrom bar.toList (pct_place + (pct_string.length : Int)))

/-- percent_done as computed by ProgressBarAscii._generate_bar:
elapsed_iter = min(current_iteration, iterations),
new_amount = elapsed_iter / iterations * 100,
percent_done = min(int(round(new_amount / 100 * 100)), 100). -/
def percentDone (iterations current_iteration : Int) : Int :=
  let elapsed_iter := min current_iteration iterations
  let new_amount : ℚ := (elapsed_iter : ℚ) / (iterations : ℚ) * 100
  min (pyRound (new_amount / 100 * 100)) 100

/-- The displayed percentage as the specification words it: round(percent)
clamped to the interval [0, 100], with percent = current / total * 100.
This definition follows the words of the spec and is compared against
percentDone, which is translated from the source. -/
def percentDoneSpec (iterations current_iteration : Int) : Int :=
  max 0 (min (pyRound ((current_iteration : ℚ) / (iterations : ℚ) * 100)) 100)

/-- ProgressBarAscii._generate_bar: the full rendered bar glyph.  The fill
character is the asterisk installed by ProgressBarAscii._setup. -/
def generate_bar (iterations width current_iteration : Int) : String :=
  makeBarString width '*' (percentDone iterations current_iteration)

/-- Which display backend a bar uses. -/
inductive Backend where
  | html
  | ascii
deriving DecidableEq

/-- Observable side effects of the progress-bar code, as a trace. -/
inductive Event where
  /-- Instrumentation: the backend draw routine (the private animate hook) was entered
  with this iteration. -/
  | render (iteration : Int)
  /-- ProgressBarAscii: a carriage-return-prefixed line written to stdout and flushed. -/
  | print (line : String)
  /-- ProgressBarHTML: the gauge value of the FloatProgress widget was set. -/
  | gauge (value : ℚ)
  /-- ProgressBarHTML: the text of the HTML label widget was set. -/
  | htmlLabel (text : String)
  /-- ProgressBarHTML: the VBox container was registered with the display surface. -/
  | display
  /-- Instrumentation: the finish method was entered. -/
  | finished
deriving DecidableEq

/-- Whether an event is a backend render (a draw call). -/
def isRender : Event → Bool
  | .render _ => true
  | _ => false

/-- Whether an event is the one-time display-surface registration. -/
def isDisplay : Event → Bool
  | .display => true
  | _ => false

/-- Whether an event marks an invocation of the finish method. -/
def isFinished : Event → Bool
  | .finished => true
  | _ => false

/-- The execution environment: module state and external conditions that the
progress-bar code observes but does not control. -/
structure Env where
  /-- The module-level has_widgets flag (did the ipywidgets import succeed). -/
  has_widgets : Bool
  /-- Whether constructing a ProgressBarHTML raises (e.g. no notebook attached).
  The failure is modelled as atomic: a failing construction emits no events. -/
  htmlFails : Bool
  /-- The text returned by the label helper of ProgressBarBase for a given
  iteration; it depends on wall-clock time, which is outside the embedding. -/
  label : Int → String
  /-- The timing text ProgressBarOld.update_iteration appends after the bar
  glyph for a given elapsed iteration (wall-clock dependent, uninterpreted). -/
  oldLabel : Int → String
  /-- The completed-in text ProgressBarOld.update_iteration appends in its
  final branch (wall-clock dependent, uninterpreted). -/
  oldDoneLabel : String

/-- The mutable state of ProgressBarBase together with the backend chosen at
construction (the backend never changes after construction). -/
structure Bar where
  backend : Backend
  /-- self._iterations (already coerced by int in __init__). -/
  iterations : Int
  /-- self._width in characters. -/
  width : Int
  /-- self._last_iteration. -/
  lastIteration : Int
  /-- self._last_printed_percent. -/
  lastPrintedPercent : ℚ
deriving DecidableEq

/-- The backend draw routine (the private animate hook of each backend): returns the
iteration (both backends return their argument) and the emitted events.
ProgressBarAscii prints a carriage-return-prefixed bar-plus-label line and
flushes; ProgressBarHTML sets the gauge to iteration / iterations * 100 and
the label text.  The stream is healthy here; the fallible-stream view used by
the exception claims is asciiAnimateFallible below. -/
def animate_backend (env : Env) (b : Bar) (iteration : Int) : Int × List Event :=
  match b.backend with
  | .ascii =>
      (iteration,
       [Event.render iteration,
        Event.print ("\r" ++ generate_bar b.iterations b.width iteration
                      ++ "  " ++ env.label iteration)])
  | .html =>
      (iteration,
       [Event.render iteration,
        Event.gauge ((iteration : ℚ) / (b.iterations : ℚ) * 100),
        Event.htmlLabel (env.label iteration)])

/-- ProgressBarBase.animate: renders only if the percentage went backward or
advanced by at least one point since the last render; a skipped call
increments _last_iteration by one instead. -/
def animate (env : Env) (b : Bar) (iteration : Int) : Bar × List Event :=
  let this_percent : ℚ := (iteration : ℚ) / (b.iterations : ℚ) * 100
  if this_percent - b.lastPrintedPercent < 0 ∨ this_percent - b.lastPrintedPercent ≥ 1 then
    ({ b with lastIteration := (animate_backend env b iteration).1,
              lastPrintedPercent := this_percent },
     (animate_backend env b iteration).2)
  else
    ({ b with lastIteration := b.lastIteration + 1 }, [])

/-- ProgressBarBase.finish: calls the backend draw routine directly at
self._iterations, bypassing the throttle in animate.  The leading
Event.finished instrumentation marks the invocation of finish itself. -/
def finish (env : Env) (b : Bar) : List Event :=
  Event.finished :: (animate_backend env b b.iterations).2

/-- Construction of a ProgressBarAscii: base init sets the counters to zero,
then _setup installs the fill character and draws an initial empty bar by
calling the backend draw routine at iteration 0. -/
def ProgressBarAscii_new (env : Env) (iterations width : Int) : Bar × List Event :=
  let b : Bar := { backend := .ascii, iterations := iterations, width := width,
                   lastIteration := 0, lastPrintedPercent := 0 }
  (b, (animate_backend env b 0).2)

/-- The successful branch of ProgressBarHTML construction: _setup creates the
FloatProgress gauge, sets it to 0 explicitly, registers the VBox container
with the display surface once, then calls the backend draw routine at iteration 0. -/
def ProgressBarHTML_ok (env : Env) (iterations width : Int) : Bar × List Event :=
  let b : Bar := { backend := .html, iterations := iterations, width := width,
                   lastIteration := 0, lastPrintedPercent := 0 }
  (b, [Event.gauge 0, Event.display] ++ (animate_backend env b 0).2)

/-- Construction of a ProgressBarHTML, which raises when the environment
cannot build rich widgets. -/
def ProgressBarHTML_new (env : Env) (iterations width : Int) :
    Except Unit (Bar × List Event) :=
  if env.htmlFails then .error () else .ok (ProgressBarHTML_ok env iterations width)

/-- The exception raised by multiple_progress_bars when force_html is set and
the HTML bars cannot be built (the message text is not modelled). -/
inductive CannotGenerateHTMLBar where
  | mk
deriving DecidableEq

/-- Whether an Except value is an error. -/
def exceptIsError {ε α : Type} : Except ε α → Bool
  | .error _ => true
  | .ok _ => false

/-- The body of the progress_bar context manager up to its yield: pick and
construct the backend.  Inside the try block the local width is rebound to 50
before ProgressBarHTML is constructed, so in the except clause width is no
longer None and the `if width is None: width = 30` there never fires: the
fallback ProgressBarAscii is built with the same width the HTML attempt used.
Every construction failure of the HTML bar is caught, so this function is
total. -/
def progress_bar_construct (env : Env) (iterations : Int) (width : Option Int) :
    Bar × List Event :=
  if env.has_widgets then
    let width1 : Int := width.getD 50
    match ProgressBarHTML_new env iterations width1 with
    | .ok r => r
    | .error _ => ProgressBarAscii_new env iterations width1
  else
    ProgressBarAscii_new env iterations (width.getD 30)

/-- The body of the multiple_progress_bars context manager up to its yield:
construct n bars of one backend.  With widgets available the width default 50
is applied before the try block; if building the n HTML bars fails (which
requires n ≥ 1, since an empty comprehension constructs nothing) the code
raises CannotGenerateHTMLBar when force_html is set and otherwise falls back
to n ascii bars of that same width.  Without widgets the width default is 30
and force_html raises immediately. -/
def multiple_progress_bars_construct (env : Env) (iterations : Int) (n : Nat)
    (width : Option Int) (force_html : Bool) :
    Except CannotGenerateHTMLBar (List Bar × List Event) :=
  if env.has_widgets then
    let w : Int := width.getD 50
    if env.htmlFails ∧ 1 ≤ n then
      if force_html then .error .mk
      else
        let rs := (List.range n).map (fun _ => ProgressBarAscii_new env iterations w)
        .ok (rs.map (fun r => r.1), (rs.map (fun r => r.2)).flatten)
    else
      let rs := (List.range n).map (fun _ => ProgressBarHTML_ok env iterations w)
      .ok (rs.map (fun r => r.1), (rs.map (fun r => r.2)).flatten)
  else
    let w : Int := width.getD 30
    if force_html then .error .mk
    else
      let rs := (List.range n).map (fun _ => ProgressBarAscii_new env iterations w)
      .ok (rs.map (fun r => r.1), (rs.map (fun r => r.2)).flatten)

/-- Executing `with progress_bar(iterations, width) as p: body` under the
generator-based context-manager protocol.  On normal exit the generator is
resumed past its yield and runs this_progress_bar.finish().  When the body
raises, the exception is thrown into the generator at the yield point; the
generator body has no try/finally around the yield, so the exception
propagates out of the generator immediately and the finish line after the
yield is never executed. -/
def progress_bar_scope {ε α : Type} (env : Env) (iterations : Int)
    (width : Option Int) (body : Bar → Except ε α) : Except ε α × List Event :=
  let r := progress_bar_construct env iterations width
  match body r.1 with
  | .ok a => (.ok a, r.2 ++ finish env r.1)
  | .error e => (.error e, r.2)

/-- Executing `with multiple_progress_bars(...) as ps: body` under the same
protocol: on normal exit every bar is finished in creation order; when the
body raises, no finish call happens; when construction itself raises, the
body never runs. -/
def multiple_progress_bars_scope {ε α : Type} (env : Env) (iterations : Int)
    (n : Nat) (width : Option Int) (force_html : Bool)
    (body : List Bar → Except ε α) :
    Except (CannotGenerateHTMLBar ⊕ ε) α × List Event :=
  match multiple_progress_bars_construct env iterations n width force_html with
  | .error e => (.error (.inl e), [])
  | .ok (bars, evs) =>
      match body bars with
      | .ok a => (.ok a, evs ++ (bars.map (finish env)).flatten)
      | .error e => (.error (.inr e), evs)

/-- ProgressBarAscii render with a fallible stream: the body prints and
flushes with no exception handler, so when the stream is broken (printOk is
false) the failure propagates to the caller. -/
def asciiAnimateFallible (env : Env) (printOk : Bool) (b : Bar)
    (current_iteration : Int) : Except Unit (Int × List Event) :=
  if printOk then
    .ok (current_iteration,
         [Event.print ("\r" ++ generate_bar b.iterations b.width current_iteration
                        ++ "  " ++ env.label current_iteration)])
  else .error ()

/-- The mutable state of the legacy ProgressBarOld. -/
structure OldState where
  iterations : Int
  prog_bar : String
  /-- self.width, set to 50 at construction. -/
  width : Int
  lastIter : Int
  /-- self._last_percent, None until the first successful render. -/
  last_percent : Option Int
deriving DecidableEq

/-- The render condition of ProgressBarOld.update_iteration:
self._last_percent is None or percent_done > self._last_percent. -/
def oldShouldPrint (last_percent : Option Int) (percent_done : Int) : Bool :=
  match last_percent with
  | none => true
  | some p => decide (p < percent_done)

/-- ProgressBarOld.update_iteration with a possibly broken stream.  Returns
the new state, the emitted output events, and whether the print raised.  The
state mutations (prog_bar, _last_percent) all happen before the print, so
they persist even when the print raises. -/
def old_update_iteration (env : Env) (printOk : Bool) (st : OldState)
    (elapsed0 : Int) : OldState × List Event × Bool :=
  let elapsed := min elapsed0 st.iterations
  if elapsed < st.iterations then
    let new_amount : ℚ := (elapsed : ℚ) / (st.iterations : ℚ) * 100
    let percent_done : Int := min (pyRound (new_amount / 100 * 100)) 100
    if oldShouldPrint st.last_percent percent_done then
      let st3 : OldState :=
        { st with prog_bar := makeBarString st.width '*' percent_done
                              ++ env.oldLabel elapsed,
                  last_percent := some percent_done }
      if printOk then (st3, [Event.print ("\r " ++ st3.prog_bar)], false)
      else (st3, [], true)
    else (st, [], false)
  else
    ({ st with prog_bar := makeBarString st.width '*' 100 ++ env.oldDoneLabel },
     [], false)

/-- ProgressBarOld.animate: sets lastIter, then runs update_iteration(iter + 1)
inside a bare try/except that swallows every exception, so a broken stream
never propagates out of this method. -/
def old_animate (env : Env) (printOk : Bool) (st : OldState) (iter : Int) :
    OldState × List Event :=
  let st1 := { st with lastIter := iter }
  let r := old_update_iteration env printOk st1 (iter + 1)
  (r.1, r.2.1)

/-- A terminal environment: no widgets, healthy stream, empty label texts. -/
def env0 : Env :=
  { has_widgets := false, htmlFails := false, label := fun _ => "",
    oldLabel := fun _ => "", oldDoneLabel := "" }

/-- An environment where ipywidgets imported but HTML construction fails. -/
def envW : Env := { env0 with has_widgets := true, htmlFails := true }

/-- A notebook environment: widgets available and HTML construction works. -/
def envH : Env := { env0 with has_widgets := true, htmlFails := false }

/-- A small fresh ascii bar: 10 iterations, width 30. -/
def barA : Bar :=
  { backend := .ascii, iterations := 10, width := 30,
    lastIteration := 0, lastPrintedPercent := 0 }

/-- A fresh ascii bar with 1000 iterations, where one iteration moves the
percentage by a tenth of a point. -/
def barT : Bar :=
  { backend := .ascii, iterations := 1000, width := 30,
    lastIteration := 0, lastPrintedPercent := 0 }

/-- An HTML bar mid-run, with a nonzero throttle state. -/
def barH : Bar :=
  { backend := .html, iterations := 10, width := 50,
    lastIteration := 3, lastPrintedPercent := 42 }

theorem ratFloor_eq_intFloor (q : ℚ) : q.floor = ⌊q⌋ := by
  rw [Rat.floor_def', Rat.floor_def]

theorem pyRound_intCast (n : ℤ) : pyRound (n : ℚ) = n := by
  simp [pyRound, ratFloor_eq_intFloor]

theorem floor_le_pyRound (q : ℚ) : ⌊q⌋ ≤ pyRound q := by
  simp only [pyRound, ratFloor_eq_intFloor]
  split_ifs <;> omega

theorem pyRound_le_floor_add_one (q : ℚ) : pyRound q ≤ ⌊q⌋ + 1 := by
  simp only [pyRound, ratFloor_eq_intFloor]
  split_ifs <;> omega

theorem pyRound_nonneg {q : ℚ} (h : 0 ≤ q) : 0 ≤ pyRound q :=
  le_trans (Int.floor_nonneg.mpr h) (floor_le_pyRound q)

theorem pyRound_le_of_le {q : ℚ} {n : ℤ} (h : q ≤ (n : ℚ)) : pyRound q ≤ n := by
  have hf : ⌊q⌋ ≤ n := by
    have h2 := Int.floor_mono h
    simpa using h2
  rcases lt_or_eq_of_le hf with h1 | h1
  · exact le_trans (pyRound_le_floor_add_one q) (by omega)
  · have h2 : (n : ℚ) ≤ q := by
      rw [← h1]
      exact Int.floor_le q
    rw [le_antisymm h h2, pyRound_intCast]

theorem le_pyRound_of_le {q : ℚ} {n : ℤ} (h : (n : ℚ) ≤ q) : n ≤ pyRound q :=
  le_trans (Int.le_floor.mpr h) (floor_le_pyRound q)

/-- C3, counterexample: the rendered bar glyph for the claimed worked example disagrees with the
claim: the splice position uses the length of the digit string without the
percent sign, so the overlay starts at index 4, not 3, and the bar has three
leading fill characters, not two. -/
theorem generate_bar_splice_counterexample :
    generate_bar 10 12 5 = "[***50%    ]" ∧ "[***50%    ]" ≠ "[**50%     ]" := by
  constructor <;> decide

/-- C3, amended: the percentage overlay claim holds with the corrected index: the percentage overlay is spliced in starting at
len(bar)//2 minus the length of the digit string (the percent sign is not
counted), which for total 10, width 12, iteration 5 is index 6 - 2 = 4, and
the rendered bar is exactly twelve characters. -/
theorem generate_bar_splice_amended :
    generate_bar 10 12 5 = "[***50%    ]" ∧
    ((generate_bar 10 12 5).toList.drop 4).take 3 = ['5', '0', '%'] ∧
    percentDone 10 5 = 50 ∧ (generate_bar 10 12 5).length = 12 :=
  ⟨by decide, by decide, by decide, by decide⟩

/-- C5, counterexample: the displayed percentage is not clamped below zero: at iteration -10 of
10 the code displays -100 while the claimed clamp gives 0. -/
theorem percentDone_negative_counterexample :
    percentDone 10 (-10) = -100 ∧ percentDoneSpec 10 (-10) = 0 := by
  constructor <;> decide

/-- C7, counterexample: a throttled (skipped) animate call does change state: it increments
_last_iteration by one, refuting the claim that both state fields are
untouched when no render occurs.  One iteration of a 1000-iteration bar
moves the percentage by only a tenth of a point, so the call is skipped. -/
theorem skip_updates_lastIteration_counterexample :
    (animate env0 barT 1).2.countP isRender = 0 ∧
    (animate env0 barT 1).1.lastIteration = 1 ∧ barT.lastIteration = 0 :=
  ⟨by decide, by decide, by decide⟩

/-- C1, counterexample: when the body of the scoped block raises, the generator-based wrapper
never reaches the line after its yield, so finish() is called zero times,
refuting the claim that finish runs on every exit path. -/
theorem finish_skipped_on_exception :
    (progress_bar_scope env0 10 none
        (fun _ => (Except.error () : Except Unit Unit))).2.countP isFinished = 0 := by
  decide

/-- C9, counterexample: a failing stream write inside the current text-backend render propagates
to the caller (there is no handler in ProgressBarAscii._animate), refuting
the claim that no render call ever propagates an exception. -/
theorem ascii_render_propagates_counterexample :
    asciiAnimateFallible env0 false barA 1 = Except.error () := rfl

theorem percentDone_eq (it cur : Int) :
    percentDone it cur =
      min (pyRound (((min cur it : Int) : ℚ) / (it : ℚ) * 100)) 100 := by
  simp only [percentDone]
  rw [div_mul_cancel₀ _ (by norm_num : (100 : ℚ) ≠ 0)]

theorem percentDone_self (it : Int) (h : 0 < it) : percentDone it it = 100 := by
  have hit : (0 : ℚ) < (it : ℚ) := by exact_mod_cast h
  rw [percentDone_eq, min_self,
    show ((it : ℚ) / (it : ℚ) * 100) = ((100 : ℤ) : ℚ) by
      rw [div_self (ne_of_gt hit)]
      push_cast
      ring,
    pyRound_intCast]
  simp

theorem percentDone_zero (it : Int) (h : 0 < it) : percentDone it 0 = 0 := by
  rw [percentDone_eq, min_eq_left h.le,
    show (((0 : Int) : ℚ)) / (it : ℚ) * 100 = ((0 : ℤ) : ℚ) by
      push_cast
      ring,
    pyRound_intCast]
  simp

/-- C2: for a positive total, an animate call renders exactly when the
percentage moved below the last printed percentage or advanced on it by at
least one point; otherwise nothing is drawn. -/
theorem animate_renders_iff (env : Env) (b : Bar) (i : Int)
    (_h : 0 < b.iterations) :
    (animate env b i).2.countP isRender =
      if ((i : ℚ) / (b.iterations : ℚ) * 100 < b.lastPrintedPercent ∨
          1 ≤ (i : ℚ) / (b.iterations : ℚ) * 100 - b.lastPrintedPercent)
      then 1 else 0 := by
  have hiff : ((i : ℚ) / (b.iterations : ℚ) * 100 - b.lastPrintedPercent < 0 ∨
      (i : ℚ) / (b.iterations : ℚ) * 100 - b.lastPrintedPercent ≥ 1) ↔
      ((i : ℚ) / (b.iterations : ℚ) * 100 < b.lastPrintedPercent ∨
       1 ≤ (i : ℚ) / (b.iterations : ℚ) * 100 - b.lastPrintedPercent) :=
    or_congr sub_neg (ge_iff_le)
  simp only [animate]
  by_cases hc : ((i : ℚ) / (b.iterations : ℚ) * 100 < b.lastPrintedPercent ∨
      1 ≤ (i : ℚ) / (b.iterations : ℚ) * 100 - b.lastPrintedPercent)
  · rw [if_pos (hiff.mpr hc), if_pos hc]
    cases hb : b.backend <;> simp [animate_backend, hb, isRender]
  · rw [if_neg (fun hcon => hc (hiff.mp hcon)), if_neg hc]
    simp

theorem animate_renders_iff_witness :
    (animate env0 barA 5).2.countP isRender = 1 := by
  have h := animate_renders_iff env0 barA 5 (by decide)
  rw [h]
  decide

/-- C7, amended: a skipped animate call leaves
_last_printed_percent unchanged but increments _last_iteration by one (a
render, by contrast, sets _last_iteration to the rendered iteration and
_last_printed_percent to the rendered percentage). -/
theorem skip_state_change_amended (env : Env) (b : Bar) (i : Int)
    (h : (animate env b i).2.countP isRender = 0) :
    (animate env b i).1.lastPrintedPercent = b.lastPrintedPercent ∧
    (animate env b i).1.lastIteration = b.lastIteration + 1 := by
  by_cases hc : ((i : ℚ) / (b.iterations : ℚ) * 100 - b.lastPrintedPercent < 0 ∨
      (i : ℚ) / (b.iterations : ℚ) * 100 - b.lastPrintedPercent ≥ 1)
  · exfalso
    simp only [animate, if_pos hc] at h
    cases hb : b.backend <;> simp [animate_backend, hb, isRender] at h
  · refine ⟨?_, ?_⟩ <;> simp only [animate, if_neg hc]

theorem skip_state_change_amended_witness :
    (animate env0 barT 1).1.lastPrintedPercent = barT.lastPrintedPercent ∧
    (animate env0 barT 1).1.lastIteration = barT.lastIteration + 1 :=
  skip_state_change_amended env0 barT 1 (by decide)

/-- C5, amended: the code clamps the displayed percentage only
from above (through min with 100 and through min(current, total)); for a
nonnegative current iteration this coincides with the claimed two-sided
clamp, while negative iterations pass through unclamped. -/
theorem percentDone_clamp_amended (it cur : Int) (h1 : 0 < it)
    (h2 : 0 ≤ cur) : percentDone it cur = percentDoneSpec it cur := by
  have hit : (0 : ℚ) < (it : ℚ) := by exact_mod_cast h1
  rcases le_or_lt cur it with hle | hlt
  · have hmin : min cur it = cur := min_eq_left hle
    have hc0 : (0 : ℚ) ≤ (cur : ℚ) := by exact_mod_cast h2
    have hq0 : (0 : ℚ) ≤ (cur : ℚ) / (it : ℚ) * 100 :=
      mul_nonneg (div_nonneg hc0 hit.le) (by norm_num)
    have hq100 : (cur : ℚ) / (it : ℚ) * 100 ≤ ((100 : ℤ) : ℚ) := by
      have hd : (cur : ℚ) / (it : ℚ) ≤ 1 :=
        (div_le_one hit).mpr (by exact_mod_cast hle)
      push_cast
      nlinarith [hd]
    have hub : pyRound ((cur : ℚ) / (it : ℚ) * 100) ≤ 100 := pyRound_le_of_le hq100
    have hlb : 0 ≤ pyRound ((cur : ℚ) / (it : ℚ) * 100) := pyRound_nonneg hq0
    rw [percentDone_eq, hmin]
    simp only [percentDoneSpec]
    omega
  · have hmin : min cur it = it := min_eq_right hlt.le
    have hge : ((100 : ℤ) : ℚ) ≤ (cur : ℚ) / (it : ℚ) * 100 := by
      have hd : (1 : ℚ) ≤ (cur : ℚ) / (it : ℚ) :=
        (one_le_div hit).mpr (by exact_mod_cast hlt.le)
      push_cast
      nlinarith [hd]
    have hge2 : (100 : ℤ) ≤ pyRound ((cur : ℚ) / (it : ℚ) * 100) :=
      le_pyRound_of_le hge
    rw [percentDone_eq, hmin,
      show ((it : ℚ) / (it : ℚ) * 100) = ((100 : ℤ) : ℚ) by
        rw [div_self (ne_of_gt hit)]
        push_cast
        ring,
      pyRound_intCast]
    simp only [percentDoneSpec]
    omega

theorem percentDone_clamp_amended_witness :
    percentDone 10 7 = percentDoneSpec 10 7 :=
  percentDone_clamp_amended 10 7 (by decide) (by decide)

/-- C8: finish always draws once, at current_iteration = total_iterations, with
no throttling test: the draw happens for every state of the throttle fields,
the ascii glyph shows a completed percentage of exactly 100, and the rich
gauge is set to exactly 100. -/
theorem finish_renders_at_total (env : Env) (b : Bar)
    (h : 0 < b.iterations) :
    (finish env b).countP isRender = 1 ∧
    Event.render b.iterations ∈ finish env b ∧
    percentDone b.iterations b.iterations = 100 ∧
    (b.backend = Backend.html → Event.gauge 100 ∈ finish env b) := by
  refine ⟨?_, ?_, percentDone_self _ h, ?_⟩
  · cases hb : b.backend <;> simp [finish, animate_backend, hb, isRender]
  · cases hb : b.backend <;> simp [finish, animate_backend, hb]
  · intro hb
    have hg : ((b.iterations : ℚ) / (b.iterations : ℚ) * 100) = 100 := by
      rw [div_self (by exact_mod_cast (ne_of_gt h) : (b.iterations : ℚ) ≠ 0)]
      ring
    simp [finish, animate_backend, hb, hg]

theorem finish_renders_at_total_witness :
    (finish env0 barH).countP isRender = 1 :=
  (finish_renders_at_total env0 barH (by decide)).1

/-- C10: constructing a bar performs exactly one initial draw, at iteration 0: the
text backend writes one carriage-return-prefixed line showing the 0-percent
bar, and the rich backend registers its container with the display surface
exactly once and only ever sets its gauge to 0 during construction. -/
theorem construction_initial_render (env : Env) (it w : Int) (h : 0 < it) :
    (ProgressBarAscii_new env it w).2 =
      [Event.render 0,
       Event.print ("\r" ++ generate_bar it w 0 ++ "  " ++ env.label 0)] ∧
    percentDone it 0 = 0 ∧
    (∀ b evs, ProgressBarHTML_new env it w = Except.ok (b, evs) →
       evs.countP isRender = 1 ∧ evs.countP isDisplay = 1 ∧
       Event.render 0 ∈ evs ∧ ∀ v, Event.gauge v ∈ evs → v = 0) := by
  refine ⟨?_, percentDone_zero it h, ?_⟩
  · simp [ProgressBarAscii_new, animate_backend]
  · intro b evs heq
    by_cases hf : env.htmlFails
    · simp only [ProgressBarHTML_new, if_pos hf] at heq
      exact absurd heq (by simp)
    · simp only [ProgressBarHTML_new, if_neg hf, Except.ok.injEq] at heq
      have hevs : (ProgressBarHTML_ok env it w).2 = evs := by rw [heq]
      rw [← hevs]
      refine ⟨?_, ?_, ?_, ?_⟩ <;>
        simp [ProgressBarHTML_ok, animate_backend, isRender, isDisplay]

theorem construction_initial_render_witness :
    percentDone 10 0 = 0 :=
  (construction_initial_render envH 10 50 (by decide)).2.1

theorem countP_isFinished_finish (env : Env) (b : Bar) :
    (finish env b).countP isFinished = 1 := by
  cases hb : b.backend <;> simp [finish, animate_backend, hb, isFinished]

theorem countP_isFinished_ascii_new (env : Env) (it w : Int) :
    ((ProgressBarAscii_new env it w).2).countP isFinished = 0 := by
  simp [ProgressBarAscii_new, animate_backend, isFinished]

theorem countP_isFinished_html_ok (env : Env) (it w : Int) :
    ((ProgressBarHTML_ok env it w).2).countP isFinished = 0 := by
  simp [ProgressBarHTML_ok, animate_backend, isFinished]

theorem countP_isFinished_construct (env : Env) (it : Int) (w : Option Int) :
    ((progress_bar_construct env it w).2).countP isFinished = 0 := by
  by_cases hw : env.has_widgets
  · by_cases hf : env.htmlFails
    · simp only [progress_bar_construct, if_pos hw, ProgressBarHTML_new, if_pos hf]
      exact countP_isFinished_ascii_new env it (w.getD 50)
    · simp only [progress_bar_construct, if_pos hw, ProgressBarHTML_new, if_neg hf]
      exact countP_isFinished_html_ok env it (w.getD 50)
  · simp only [progress_bar_construct, if_neg hw]
    exact countP_isFinished_ascii_new env it (w.getD 30)

theorem countP_isFinished_finish_flatten (env : Env) (bars : List Bar) :
    ((bars.map (finish env)).flatten).countP isFinished = bars.length := by
  induction bars with
  | nil => simp
  | cons b bs ih =>
      simp only [List.map_cons, List.flatten_cons, List.countP_append, ih,
        countP_isFinished_finish, List.length_cons]
      omega

theorem countP_isFinished_flatten_zero {α : Type} (l : List α)
    (f : α → Bar × List Event)
    (hf : ∀ a, ((f a).2).countP isFinished = 0) :
    (((l.map f).map (fun r => r.2)).flatten).countP isFinished = 0 := by
  induction l with
  | nil => simp
  | cons a as ih =>
      simp only [List.map_cons, List.flatten_cons, List.countP_append, ih, hf]

theorem mem_bars_of_map_fst {c : Bar × List Event} {n : Nat} {b : Bar}
    (h : b ∈ ((List.range n).map (fun _ => c)).map (fun r => r.1)) : b = c.1 := by
  rcases List.mem_map.mp h with ⟨r, hr, rfl⟩
  rcases List.mem_map.mp hr with ⟨i, _, rfl⟩
  rfl

theorem multiple_construct_ok (env : Env) (it : Int) (n : Nat) (w : Option Int)
    (fh : Bool) (bars : List Bar) (evs : List Event)
    (h : multiple_progress_bars_construct env it n w fh = .ok (bars, evs)) :
    bars.length = n ∧ evs.countP isFinished = 0 := by
  simp only [multiple_progress_bars_construct] at h
  by_cases hw : env.has_widgets
  · rw [if_pos hw] at h
    by_cases hc : (env.htmlFails ∧ 1 ≤ n)
    · rw [if_pos hc] at h
      cases hfh : fh
      · rw [hfh] at h
        simp only [Bool.false_eq_true, if_false, Except.ok.injEq,
          Prod.mk.injEq] at h
        obtain ⟨hbars, hevs⟩ := h
        subst hbars
        subst hevs
        refine ⟨by simp, ?_⟩
        exact countP_isFinished_flatten_zero (List.range n) _
          (fun _ => countP_isFinished_ascii_new env it (w.getD 50))
      · rw [hfh] at h
        simp at h
    · rw [if_neg hc] at h
      simp only [Except.ok.injEq, Prod.mk.injEq] at h
      obtain ⟨hbars, hevs⟩ := h
      subst hbars
      subst hevs
      refine ⟨by simp, ?_⟩
      exact countP_isFinished_flatten_zero (List.range n) _
        (fun _ => countP_isFinished_html_ok env it (w.getD 50))
  · rw [if_neg hw] at h
    cases hfh : fh
    · rw [hfh] at h
      simp only [Bool.false_eq_true, if_false, Except.ok.injEq,
        Prod.mk.injEq] at h
      obtain ⟨hbars, hevs⟩ := h
      subst hbars
      subst hevs
      refine ⟨by simp, ?_⟩
      exact countP_isFinished_flatten_zero (List.range n) _
        (fun _ => countP_isFinished_ascii_new env it (w.getD 30))
    · rw [hfh] at h
      simp at h

/-- C1, amended: finish() is invoked exactly once per bar
when the body of the scoped block exits normally, and zero times when the
body raises (the generator wrappers have no try/finally around their yield);
for a batch, a normal exit finishes all n bars and an exceptional exit
finishes none. -/
theorem finish_calls_match_exit_path {ε α : Type} (env : Env) (it : Int)
    (w : Option Int) (body : Bar → Except ε α) (n : Nat) (fh : Bool)
    (bodyN : List Bar → Except ε α) :
    ((progress_bar_scope env it w body).2.countP isFinished =
        cond (body (progress_bar_construct env it w).1).isOk 1 0) ∧
    ((multiple_progress_bars_scope env it n w fh bodyN).2.countP isFinished =
        match multiple_progress_bars_construct env it n w fh with
        | .error _ => 0
        | .ok (bars, _) => cond (bodyN bars).isOk n 0) := by
  constructor
  · simp only [progress_bar_scope]
    cases hb : body (progress_bar_construct env it w).1 with
    | ok a =>
        simp only [List.countP_append, countP_isFinished_construct,
          countP_isFinished_finish]
        simp [Except.isOk, Except.toBool]
    | error e =>
        simp only [countP_isFinished_construct]
        simp [Except.isOk, Except.toBool]
  · cases hc : multiple_progress_bars_construct env it n w fh with
    | error e => simp [multiple_progress_bars_scope, hc]
    | ok p =>
        obtain ⟨bars, evs⟩ := p
        obtain ⟨hlen, hevs⟩ := multiple_construct_ok env it n w fh bars evs hc
        simp only [multiple_progress_bars_scope, hc]
        cases hb : bodyN bars with
        | ok a =>
            simp only [List.countP_append, hevs,
              countP_isFinished_finish_flatten, hlen]
            simp [Except.isOk, Except.toBool]
        | error e =>
            simp only [hevs]
            simp [Except.isOk, Except.toBool]

/-- C4, counterexample: a single-bar construction that falls back from a failed rich construction
produces a text bar of width 50, not 30: the claim that every text-backend
bar defaults to width 30 fails on the fallback path. -/
theorem fallback_width_counterexample :
    (progress_bar_construct envW 10 none).1.backend = Backend.ascii ∧
    (progress_bar_construct envW 10 none).1.width = 50 ∧
    (progress_bar_construct envW 10 none).1.width ≠ 30 :=
  ⟨by decide, by decide, by decide⟩

/-- C4, amended: with no caller-specified width, every bar
(single or batch) is built with width 50 whenever the widgets module is
available, even the text bars produced by the rich-to-text fallback, because
the width default is applied before the rich construction is attempted; the
text default 30 applies only when the widgets module is unavailable.  Rich
bars therefore always have width 50. -/
theorem default_width_amended (env : Env) (it : Int) (n : Nat) (fh : Bool) :
    ((progress_bar_construct env it none).1.width =
        (if env.has_widgets then 50 else 30)) ∧
    ((progress_bar_construct env it none).1.backend = Backend.html →
        (progress_bar_construct env it none).1.width = 50) ∧
    (∀ bars evs,
        multiple_progress_bars_construct env it n none fh = Except.ok (bars, evs) →
        ∀ b ∈ bars, b.width = (if env.has_widgets then 50 else 30)) := by
  refine ⟨?_, ?_, ?_⟩
  · by_cases hw : env.has_widgets
    · by_cases hf : env.htmlFails
      · simp [progress_bar_construct, ProgressBarHTML_new, hw, hf,
          ProgressBarAscii_new]
      · simp [progress_bar_construct, ProgressBarHTML_new, hw, hf,
          ProgressBarHTML_ok]
    · simp [progress_bar_construct, hw, ProgressBarAscii_new]
  · intro hb
    by_cases hw : env.has_widgets
    · by_cases hf : env.htmlFails
      · simp [progress_bar_construct, ProgressBarHTML_new, hw, hf,
          ProgressBarAscii_new]
      · simp [progress_bar_construct, ProgressBarHTML_new, hw, hf,
          ProgressBarHTML_ok]
    · simp [progress_bar_construct, hw, ProgressBarAscii_new] at hb
  · intro bars evs h b hbmem
    simp only [multiple_progress_bars_construct] at h
    by_cases hw : env.has_widgets
    · rw [if_pos hw] at h
      by_cases hc : (env.htmlFails ∧ 1 ≤ n)
      · rw [if_pos hc] at h
        cases hfh : fh
        · rw [hfh] at h
          simp only [Bool.false_eq_true, if_false, Except.ok.injEq,
            Prod.mk.injEq] at h
          obtain ⟨hbars, _⟩ := h
          subst hbars
          rw [mem_bars_of_map_fst hbmem]
          simp [ProgressBarAscii_new, hw]
        · rw [hfh] at h
          simp at h
      · rw [if_neg hc] at h
        simp only [Except.ok.injEq, Prod.mk.injEq] at h
        obtain ⟨hbars, _⟩ := h
        subst hbars
        rw [mem_bars_of_map_fst hbmem]
        simp [ProgressBarHTML_ok, hw]
    · rw [if_neg hw] at h
      cases hfh : fh
      · rw [hfh] at h
        simp only [Bool.false_eq_true, if_false, Except.ok.injEq,
          Prod.mk.injEq] at h
        obtain ⟨hbars, _⟩ := h
        subst hbars
        rw [mem_bars_of_map_fst hbmem]
        simp [ProgressBarAscii_new, hw]
      · rw [hfh] at h
        simp at h

theorem default_width_amended_witness :
    (progress_bar_construct envW 10 none).1.width =
      (if envW.has_widgets then 50 else 30) ∧
    ((ProgressBarAscii_new envW 10 50).1).width =
      (if envW.has_widgets then 50 else 30) := by
  refine ⟨(default_width_amended envW 10 1 false).1, ?_⟩
  exact (default_width_amended envW 10 1 false).2.2
    [(ProgressBarAscii_new envW 10 50).1] ((ProgressBarAscii_new envW 10 50).2)
    rfl ((ProgressBarAscii_new envW 10 50).1) (List.mem_singleton.mpr rfl)

/-- C6: the forced-rich error is raised exactly by batch construction with
force_html set when the rich backend cannot be built (widgets missing, or
construction of at least one bar failing); single-bar construction never
raises it and silently falls back to the text backend. -/
theorem cannotGenerateHTMLBar_only_forced_batch (env : Env) (it : Int)
    (n : Nat) (w : Option Int) (fh : Bool) :
    (exceptIsError (multiple_progress_bars_construct env it n w fh) = true ↔
      fh = true ∧ (env.has_widgets = false ∨ (env.htmlFails = true ∧ 1 ≤ n))) ∧
    (env.has_widgets = true → env.htmlFails = true →
      (progress_bar_construct env it w).1.backend = Backend.ascii) := by
  constructor
  · simp only [multiple_progress_bars_construct]
    by_cases hw : env.has_widgets
    · rw [if_pos hw]
      by_cases hc : (env.htmlFails ∧ 1 ≤ n)
      · rw [if_pos hc]
        cases hfh : fh
        · simp [exceptIsError]
        · simp [exceptIsError, hc.1, hc.2]
      · rw [if_neg hc]
        constructor
        · intro hq
          simp [exceptIsError] at hq
        · rintro ⟨-, hor | hor⟩
          · rw [hw] at hor
            exact Bool.noConfusion hor
          · exact absurd hor hc
    · rw [if_neg hw]
      cases hfh : fh
      · simp [exceptIsError]
      · have hwf : env.has_widgets = false := by
          cases h2 : env.has_widgets
          · rfl
          · exact absurd h2 hw
        simp [exceptIsError, hwf]
  · intro hwt hft
    simp [progress_bar_construct, ProgressBarHTML_new, hwt, hft,
      ProgressBarAscii_new]

theorem cannotGenerateHTMLBar_only_forced_batch_witness :
    exceptIsError (multiple_progress_bars_construct envW 10 2 none true) = true ∧
    (progress_bar_construct envW 10 none).1.backend = Backend.ascii := by
  refine ⟨?_, (cannotGenerateHTMLBar_only_forced_batch envW 10 2 none true).2 rfl rfl⟩
  exact (cannotGenerateHTMLBar_only_forced_batch envW 10 2 none true).1.mpr
    ⟨rfl, Or.inr ⟨rfl, by norm_num⟩⟩

/-- C9, amended: only the legacy bar swallows render-time
failures (its animate wraps everything in a bare try/except, so a broken
stream changes only the emitted output, never the state, and no exception
escapes); the current text backend has no handler and propagates a stream
failure to its caller. -/
theorem render_exception_amended :
    (∀ (env : Env) (b : Bar) (i : Int),
        asciiAnimateFallible env false b i = Except.error ()) ∧
    (∀ (env : Env) (st : OldState) (i : Int),
        (old_animate env false st i).1 = (old_animate env true st i).1 ∧
        (old_animate env false st i).2 = []) := by
  constructor
  · intro env b i
    rfl
  · intro env st i
    refine ⟨?_, ?_⟩ <;>
      · simp only [old_animate, old_update_iteration]
        split_ifs <;> simp_all

end ThreeMLProgress
